import Mathlib

/-!
# Verification of the GCS uploader batch-upload core (`src/main.py`)

A shallow embedding of the batch-upload subsystem of `main.py`:
the single-file uploader `GCSUploader.upload_file`, the batch
orchestrator `GCSUploader.upload_directory`, and the two CLI commands
`upload` and `upload_dir`.

External collaborators (the local filesystem and the Google Cloud
Storage client) are modelled as an explicit environment `Env` of pure
oracles; each oracle records what the corresponding Python call would
return (or raise, encoded as `Option`/a sum).  The Python functions are
translated statement by statement over that environment.  Since
`as_completed` yields the task futures in a nondeterministic order, the
aggregation loop of `upload_directory` is modelled over an arbitrary
permutation of the submitted task list.
-/

namespace GCS

/-- Result of a call against the GCS store that the Python code wraps in
`try`: `none` means the call returned normally, `some msg` means it
raised an exception (the code treats `NotFound`, `Forbidden` and any
other exception identically for control flow: all lead to
`return False`). -/
abbrev CallResult := Option String

/-- The environment of external collaborators consumed by `main.py`:
the local filesystem and the object store.  Each field is the pure
oracle for one external call site. -/
structure Env where
  /-- `Path(local_file_path).exists()` -/
  fileExists : String → Bool
  /-- `blob.upload_from_filename(...)` for (local path, bucket, blob name):
  `none` = returned, `some e` = raised. -/
  uploadResult : String → String → String → CallResult
  /-- `blob.make_public()` for (bucket, blob name). -/
  makePublicResult : String → String → CallResult
  /-- `GCSUploader.bucket_exists(bucket_name)` (already a `bool` in the
  source: every exception path of that method returns `False`). -/
  bucketExists : String → Bool
  /-- `local_dir_path.exists() and local_dir_path.is_dir()` -/
  dirOk : String → Bool
  /-- `local_dir_path.rglob('*')` filtered by `is_file()`, rendered as
  the relative-path strings `str(file_path.relative_to(local_dir_path))`,
  in enumeration order. -/
  listFiles : String → List String

/-- Split a character list at every `/` (helper for `pathName`). -/
def splitSlash : List Char → List (List Char)
  | [] => [[]]
  | c :: rest =>
    match splitSlash rest with
    | [] => [[]]
    | cur :: done => if c = '/' then [] :: cur :: done else (c :: cur) :: done

/-- `Path(p).name`: the final path component of a POSIX path string
(trailing slashes ignored, empty when there is no component). -/
def pathName (p : String) : String :=
  String.mk ((((splitSlash p.data).filter (fun c => c ≠ [])).getLast?).getD [])

/-- Character-level body of Python `s.replace('\\', '/')`. -/
def replaceBackslash : List Char → List Char
  | [] => []
  | c :: rest => (if c = '\\' then '/' else c) :: replaceBackslash rest

/-- Python `s.replace('\\', '/')`: every backslash becomes a forward
slash. -/
def normalizeSlashes (s : String) : String :=
  String.mk (replaceBackslash s.data)

/-- Line 149 of `main.py`:
`f"{prefix}{relative_path}".replace('\\', '/') if prefix else str(relative_path).replace('\\', '/')`.
An empty prefix is falsy in Python, so the `if prefix` test is an
emptiness test. -/
def blob_name_for (pre rel : String) : String :=
  if pre = "" then normalizeSlashes rel else normalizeSlashes (pre ++ rel)

/-- The key mapping as §4.2 of the spec words it: destination_key =
prefix + relative_path, with only the relative path's separators
normalized to `/`.  Kept separate from `blob_name_for` (the source's
mapping) so the two can be compared. -/
def spec_destination_key (pre rel : String) : String :=
  pre ++ normalizeSlashes rel

/-- Observable calls a single-file upload makes against the store. -/
inductive Event
  /-- one `blob.upload_from_filename` call (an attempted object write) -/
  | storeWrite (bucket blob : String)
  /-- one `blob.make_public()` call (a visibility change) -/
  | visibility (bucket blob : String)
deriving DecidableEq, Repr

/-- `GCSUploader.upload_file` (lines 63–115): returns the boolean the
Python function returns, paired with the trace of store calls it made,
in order.  Every exception inside the `try` block is caught and turned
into `return False`; no exception escapes. -/
def upload_file (env : Env) (localPath bucket : String)
    (blobName : Option String) (makePublic : Bool) : Bool × List Event :=
  if env.fileExists localPath = false then
    (false, [])
  else
    let blob := blobName.getD (pathName localPath)
    match env.uploadResult localPath bucket blob with
    | some _ => (false, [Event.storeWrite bucket blob])
    | none =>
      if makePublic then
        match env.makePublicResult bucket blob with
        | some _ => (false, [Event.storeWrite bucket blob, Event.visibility bucket blob])
        | none => (true, [Event.storeWrite bucket blob, Event.visibility bucket blob])
      else
        (true, [Event.storeWrite bucket blob])

/-- The `results` dict of `upload_directory` (line 158). -/
structure BatchResult where
  success : Nat
  failed : Nat
  errors : List String
deriving DecidableEq, Repr

/-- What `future.result()` delivers for one task in the `as_completed`
loop: the task's boolean, or an exception re-raised by the future. -/
inductive TaskResult
  | ok
  | fail
  | raised (msg : String)
deriving DecidableEq, Repr

/-- `str(file_path)` for `file_path = local_dir_path / relative_path`. -/
def joinPath (root rel : String) : String := root ++ "/" ++ rel

/-- One iteration of the `as_completed` loop (lines 170–183): exactly
one counter is incremented, and on a failure exactly one string is
appended to `errors`. -/
def aggregate_step (fp : String) (t : TaskResult) (r : BatchResult) : BatchResult :=
  match t with
  | TaskResult.ok => { r with success := r.success + 1 }
  | TaskResult.fail =>
      { r with failed := r.failed + 1
               errors := r.errors ++ ["Failed to upload: " ++ fp] }
  | TaskResult.raised m =>
      { r with failed := r.failed + 1
               errors := r.errors ++ ["Error uploading " ++ fp ++ ": " ++ m] }

/-- The whole `as_completed` loop, folded over the completion order. -/
def aggregate (completed : List (String × TaskResult)) : BatchResult :=
  completed.foldl (fun r e => aggregate_step e.1 e.2 r) ⟨0, 0, []⟩

/-- `files_to_upload` (lines 145–150): the (absolute source path,
destination blob name) pairs for every regular file under the root. -/
def files_to_upload (env : Env) (root pre : String) : List (String × String) :=
  (env.listFiles root).map (fun rel => (joinPath root rel, blob_name_for pre rel))

/-- The settled outcome of each submitted task, in submission order:
every future delivers `upload_file`'s boolean (the modelled
`upload_file` never raises, so no task yields `TaskResult.raised`). -/
def task_outcomes (env : Env) (root bucket pre : String) (makePublic : Bool) :
    List (String × TaskResult) :=
  (files_to_upload env root pre).map (fun fb =>
    (fb.1, if (upload_file env fb.1 bucket (some fb.2) makePublic).1
           then TaskResult.ok else TaskResult.fail))

/-- `GCSUploader.upload_directory` (lines 117–186).  `completed` is the
order in which `as_completed` yields the futures: any permutation of
the submitted tasks (theorems below take that as a hypothesis). -/
def upload_directory (env : Env) (root bucket pre : String) (makePublic : Bool)
    (completed : List (String × TaskResult)) : BatchResult :=
  if env.dirOk root = false then ⟨0, 0, []⟩
  else if files_to_upload env root pre = [] then ⟨0, 0, []⟩
  else aggregate completed

/-- The trace of store calls made by a batch run: the concatenation of
each task's single-file trace (no task is dispatched when the root
check fails or no files are found). -/
def upload_directory_events (env : Env) (root bucket pre : String)
    (makePublic : Bool) : List Event :=
  if env.dirOk root = false then []
  else (files_to_upload env root pre).flatMap
    (fun fb => (upload_file env fb.1 bucket (some fb.2) makePublic).2)

/-- The `upload` CLI command (lines 227–255): exit status only.
`click.Path(exists=True)` has already validated the argument; the
command exits 1 if the bucket check fails, otherwise 1 on a failed
upload and 0 on success. -/
def upload_cli (env : Env) (filePath bucket : String)
    (blobName : Option String) (public : Bool) : Nat :=
  if env.bucketExists bucket = false then 1
  else if (upload_file env filePath bucket blobName public).1 then 0 else 1

/-- The `upload_dir` CLI command (lines 258–295): exit status paired
with the trace of store calls made.  The bucket check short-circuits
before `upload_directory` is invoked; otherwise the exit status is 1
exactly when `results['failed'] > 0`. -/
def upload_dir_cli (env : Env) (root bucket pre : String) (public : Bool)
    (completed : List (String × TaskResult)) : Nat × List Event :=
  if env.bucketExists bucket = false then (1, [])
  else
    let results := upload_directory env root bucket pre public completed
    (if results.failed > 0 then 1 else 0,
     upload_directory_events env root bucket pre public)

/-- Number of successful outcomes in a completion list. -/
def countOk (l : List (String × TaskResult)) : Nat :=
  l.countP (fun t => t.2 = TaskResult.ok)

/-- Number of unsuccessful outcomes in a completion list. -/
def countFail (l : List (String × TaskResult)) : Nat :=
  l.countP (fun t => ¬ t.2 = TaskResult.ok)

/-! ## Concrete environments used to witness the theorems

`sampleEnv` describes a small world: a directory `/data` holding three
regular files, of which `sub/bad.txt` fails its store write; an empty
directory `/empty`; a missing file `/data/missing.txt`; a bucket
`mybucket` that exists; and an object `locked.txt` whose
visibility-change call fails. -/

def sampleEnv : Env where
  fileExists := fun p => decide (p ≠ "/data/missing.txt")
  uploadResult := fun _ _ blob =>
    if blob = "sub/bad.txt" then some "quota exceeded" else none
  makePublicResult := fun _ blob =>
    if blob = "locked.txt" then some "forbidden" else none
  bucketExists := fun b => decide (b = "mybucket")
  dirOk := fun d => decide (d = "/data" ∨ d = "/empty")
  listFiles := fun d =>
    if d = "/data" then ["a.txt", "sub/bad.txt", "b.txt"] else []

/-! ## Helper lemmas about the aggregation loop -/

theorem aggregate_foldl (l : List (String × TaskResult)) (r : BatchResult) :
    (List.foldl (fun r e => aggregate_step e.1 e.2 r) r l).success
        = r.success + countOk l ∧
    (List.foldl (fun r e => aggregate_step e.1 e.2 r) r l).failed
        = r.failed + countFail l ∧
    (List.foldl (fun r e => aggregate_step e.1 e.2 r) r l).errors.length
        = r.errors.length + countFail l := by
  induction l generalizing r with
  | nil => simp [countOk, countFail]
  | cons e rest ih =>
    obtain ⟨fp, t⟩ := e
    have h := ih (aggregate_step fp t r)
    cases t <;>
      simp [aggregate_step, countOk, countFail, List.countP_cons] at h ⊢ <;>
      omega

theorem aggregate_success (l : List (String × TaskResult)) :
    (aggregate l).success = countOk l := by
  simpa using (aggregate_foldl l ⟨0, 0, []⟩).1

theorem aggregate_failed (l : List (String × TaskResult)) :
    (aggregate l).failed = countFail l := by
  simpa using (aggregate_foldl l ⟨0, 0, []⟩).2.1

theorem aggregate_errors_length (l : List (String × TaskResult)) :
    (aggregate l).errors.length = countFail l := by
  simpa using (aggregate_foldl l ⟨0, 0, []⟩).2.2

theorem countOk_add_countFail (l : List (String × TaskResult)) :
    countOk l + countFail l = l.length := by
  induction l with
  | nil => simp [countOk, countFail]
  | cons e rest ih =>
    by_cases h : e.2 = TaskResult.ok <;>
      simp [countOk, countFail, List.countP_cons, h] at ih ⊢ <;> omega

theorem replaceBackslash_append (a b : List Char) :
    replaceBackslash (a ++ b) = replaceBackslash a ++ replaceBackslash b := by
  induction a with
  | nil => simp [replaceBackslash]
  | cons c rest ih => simp [replaceBackslash, ih]

theorem normalizeSlashes_append (a b : String) :
    normalizeSlashes (a ++ b) = normalizeSlashes a ++ normalizeSlashes b := by
  simp [normalizeSlashes, replaceBackslash_append]
  rfl

/-! ## Claims -/

/-- C1: for every directory batch over an existing root directory,
after `upload_directory` returns, the success count plus the failure
count equals the number of regular files enumerated under the root, and
the errors list contains exactly one entry per failed task — for every
order in which the futures complete. -/
theorem C1_batch_accounting (env : Env) (root bucket pre : String) (mp : Bool)
    (completed : List (String × TaskResult))
    (hdir : env.dirOk root = true)
    (hcomp : completed.Perm (task_outcomes env root bucket pre mp)) :
    (upload_directory env root bucket pre mp completed).success
      + (upload_directory env root bucket pre mp completed).failed
      = (env.listFiles root).length ∧
    (upload_directory env root bucket pre mp completed).errors.length
      = (upload_directory env root bucket pre mp completed).failed := by
  by_cases hfe : files_to_upload env root pre = []
  · have hl : env.listFiles root = [] := by
      cases h' : env.listFiles root with
      | nil => rfl
      | cons a as => simp [files_to_upload, h'] at hfe
    simp [upload_directory, hdir, hfe, hl]
  · have hlen : completed.length = (env.listFiles root).length := by
      simpa [task_outcomes, files_to_upload] using hcomp.length_eq
    have h2 := countOk_add_countFail completed
    simp [upload_directory, hdir, hfe, aggregate_success, aggregate_failed,
      aggregate_errors_length]
    omega

/-- C1 witness: in `sampleEnv`, the batch over `/data` (three files,
one of which fails) satisfies the accounting invariant. -/
theorem C1_batch_accounting_witness :
    sampleEnv.dirOk "/data" = true ∧
    ((upload_directory sampleEnv "/data" "mybucket" "" false
        (task_outcomes sampleEnv "/data" "mybucket" "" false)).success
      + (upload_directory sampleEnv "/data" "mybucket" "" false
          (task_outcomes sampleEnv "/data" "mybucket" "" false)).failed
      = (sampleEnv.listFiles "/data").length ∧
     (upload_directory sampleEnv "/data" "mybucket" "" false
        (task_outcomes sampleEnv "/data" "mybucket" "" false)).errors.length
      = (upload_directory sampleEnv "/data" "mybucket" "" false
          (task_outcomes sampleEnv "/data" "mybucket" "" false)).failed) :=
  ⟨by decide,
   C1_batch_accounting sampleEnv "/data" "mybucket" "" false
     (task_outcomes sampleEnv "/data" "mybucket" "" false)
     (by decide) (List.Perm.refl _)⟩

/-- C2 counterexample: `upload_directory` on the missing root `/nope`
does NOT fail — it returns the normal result {success:0, failed:0,
errors:[]}, byte-for-byte identical to the result of a genuine run over
the existing empty directory `/empty`. -/
theorem C2_counterexample :
    sampleEnv.dirOk "/nope" = false ∧
    sampleEnv.dirOk "/empty" = true ∧
    upload_directory sampleEnv "/nope" "mybucket" "" false []
      = upload_directory sampleEnv "/empty" "mybucket" "" false [] := by
  decide

/-- C2 amended: for every root path that does not exist or is not a
directory, `upload_directory` logs an error and returns the normal
result {success:0, failed:0, errors:[]} — indistinguishable from an
empty-directory run — rather than failing with a NotFoundError. -/
theorem C2_missing_root_returns_empty (env : Env) (root bucket pre : String)
    (mp : Bool) (completed : List (String × TaskResult))
    (hdir : env.dirOk root = false) :
    upload_directory env root bucket pre mp completed = ⟨0, 0, []⟩ := by
  simp [upload_directory, hdir]

/-- C2 witness: the amended behaviour at the concrete missing root. -/
theorem C2_missing_root_witness :
    sampleEnv.dirOk "/nope" = false ∧
    upload_directory sampleEnv "/nope" "mybucket" "" false [] = ⟨0, 0, []⟩ :=
  ⟨by decide,
   C2_missing_root_returns_empty sampleEnv "/nope" "mybucket" "" false [] (by decide)⟩

/-- C3 counterexample: the claim says only the relative path's
separators are normalized, so a prefix containing a backslash should
survive unchanged; the code (line 149) applies `.replace('\\', '/')` to
the whole concatenation, so the prefix's backslash is rewritten too. -/
theorem C3_counterexample :
    blob_name_for "d\\" "a.txt" = "d/a.txt" ∧
    spec_destination_key "d\\" "a.txt" = "d\\a.txt" ∧
    blob_name_for "d\\" "a.txt" ≠ spec_destination_key "d\\" "a.txt" := by
  decide

/-- C3 amended: the destination key equals the prefix concatenated with
the relative path with ALL backslashes of the concatenation — those in
the prefix included — normalized to `/`; if the prefix is empty the key
equals the normalized relative path; in particular prefix `data/` with
relative path `a/b/c.txt` yields `data/a/b/c.txt` whether the local
separator is `/` or `\`. -/
theorem C3_key_mapping (pre rel : String) :
    blob_name_for pre rel = normalizeSlashes (pre ++ rel) ∧
    blob_name_for "" rel = normalizeSlashes rel ∧
    blob_name_for "data/" "a/b/c.txt" = "data/a/b/c.txt" ∧
    blob_name_for "data/" "a\\b\\c.txt" = "data/a/b/c.txt" := by
  refine ⟨?_, by simp [blob_name_for], by decide, by decide⟩
  by_cases h : pre = ""
  · subst h
    simp [blob_name_for]
  · simp [blob_name_for, h]

/-- C4: for every directory that exists but contains no regular files,
`upload_directory` returns {success:0, failed:0, errors:[]} and does
not fail. -/
theorem C4_empty_directory (env : Env) (root bucket pre : String) (mp : Bool)
    (completed : List (String × TaskResult))
    (hdir : env.dirOk root = true)
    (hempty : env.listFiles root = []) :
    upload_directory env root bucket pre mp completed = ⟨0, 0, []⟩ := by
  simp [upload_directory, hdir, files_to_upload, hempty]

/-- C4 witness: the empty directory `/empty` of `sampleEnv`. -/
theorem C4_empty_directory_witness :
    sampleEnv.dirOk "/empty" = true ∧
    sampleEnv.listFiles "/empty" = [] ∧
    upload_directory sampleEnv "/empty" "mybucket" "" false [] = ⟨0, 0, []⟩ :=
  ⟨by decide, by decide,
   C4_empty_directory sampleEnv "/empty" "mybucket" "" false []
     (by decide) (by decide)⟩

/-- C5: per-task errors are caught at the task boundary — a store call
that raises makes `upload_file` return `False`, never an exception —
and every task is tallied independently of the others: in any
completion order, the batch's success (resp. failure) count equals the
number of tasks whose own single-file upload succeeded (resp. failed),
so one failing task never aborts the batch or prevents the
success-reporting of the remaining tasks. -/
theorem C5_failure_isolation (env : Env) (root bucket pre : String) (mp : Bool)
    (completed : List (String × TaskResult))
    (hdir : env.dirOk root = true)
    (hcomp : completed.Perm (task_outcomes env root bucket pre mp)) :
    (∀ fp blob e, env.uploadResult fp bucket blob = some e →
        (upload_file env fp bucket (some blob) mp).1 = false) ∧
    (upload_directory env root bucket pre mp completed).success
      = countOk (task_outcomes env root bucket pre mp) ∧
    (upload_directory env root bucket pre mp completed).failed
      = countFail (task_outcomes env root bucket pre mp) := by
  refine ⟨?_, ?_⟩
  · intro fp blob e he
    cases hex : env.fileExists fp <;> simp [upload_file, hex, he]
  · have hok : countOk completed = countOk (task_outcomes env root bucket pre mp) := by
      unfold countOk
      exact hcomp.countP_eq _
    have hfail : countFail completed = countFail (task_outcomes env root bucket pre mp) := by
      unfold countFail
      exact hcomp.countP_eq _
    by_cases hfe : files_to_upload env root pre = []
    · have ht : task_outcomes env root bucket pre mp = [] := by
        simp [task_outcomes, hfe]
      simp [upload_directory, hdir, hfe, ht, countOk, countFail]
    · simp [upload_directory, hdir, hfe, aggregate_success, aggregate_failed,
        hok, hfail]

/-- C5 witness: in the `/data` batch of `sampleEnv`, the injected store
failure for `sub/bad.txt` becomes a `False` outcome at the task
boundary, while the other two tasks are still reported as successes. -/
theorem C5_failure_isolation_witness :
    (upload_file sampleEnv "/data/sub/bad.txt" "mybucket" (some "sub/bad.txt") false).1
      = false ∧
    (upload_directory sampleEnv "/data" "mybucket" "" false
        (task_outcomes sampleEnv "/data" "mybucket" "" false)).success
      = countOk (task_outcomes sampleEnv "/data" "mybucket" "" false) ∧
    (upload_directory sampleEnv "/data" "mybucket" "" false
        (task_outcomes sampleEnv "/data" "mybucket" "" false)).success = 2 ∧
    (upload_directory sampleEnv "/data" "mybucket" "" false
        (task_outcomes sampleEnv "/data" "mybucket" "" false)).failed = 1 :=
  ⟨(C5_failure_isolation sampleEnv "/data" "mybucket" "" false
      (task_outcomes sampleEnv "/data" "mybucket" "" false)
      (by decide) (List.Perm.refl _)).1
      "/data/sub/bad.txt" "sub/bad.txt" "quota exceeded" (by decide),
   (C5_failure_isolation sampleEnv "/data" "mybucket" "" false
      (task_outcomes sampleEnv "/data" "mybucket" "" false)
      (by decide) (List.Perm.refl _)).2.1,
   by decide, by decide⟩

/-- C6: for a single-file upload with `make_public` requested, on a
successful object write the visibility-change call is made immediately
after the write (the trace is exactly [storeWrite, visibility]), and if
that visibility call fails the task is reported as a failure rather
than a success. -/
theorem C6_make_public_failure (env : Env) (fp bucket : String)
    (blobName : Option String)
    (hex : env.fileExists fp = true)
    (hup : env.uploadResult fp bucket (blobName.getD (pathName fp)) = none) :
    (upload_file env fp bucket blobName true).2
      = [Event.storeWrite bucket (blobName.getD (pathName fp)),
         Event.visibility bucket (blobName.getD (pathName fp))] ∧
    (∀ e, env.makePublicResult bucket (blobName.getD (pathName fp)) = some e →
        (upload_file env fp bucket blobName true).1 = false) := by
  constructor
  · cases hmp : env.makePublicResult bucket (blobName.getD (pathName fp)) <;>
      simp [upload_file, hex, hup, hmp]
  · intro e he
    simp [upload_file, hex, hup, he]

/-- C6 witness: uploading `/data/locked.txt` with `make_public` in
`sampleEnv` writes the object, then the visibility call fails, and the
task is reported as a failure. -/
theorem C6_make_public_failure_witness :
    (upload_file sampleEnv "/data/locked.txt" "mybucket" (some "locked.txt") true).2
      = [Event.storeWrite "mybucket" "locked.txt",
         Event.visibility "mybucket" "locked.txt"] ∧
    (upload_file sampleEnv "/data/locked.txt" "mybucket" (some "locked.txt") true).1
      = false :=
  ⟨(C6_make_public_failure sampleEnv "/data/locked.txt" "mybucket"
      (some "locked.txt") (by decide) (by decide)).1,
   (C6_make_public_failure sampleEnv "/data/locked.txt" "mybucket"
      (some "locked.txt") (by decide) (by decide)).2 "forbidden" (by decide)⟩

/-- C7: when the destination bucket is verified non-existent
beforehand, the `upload_dir` command exits with status 1 before
`upload_directory` is invoked: no task is dispatched and zero store
writes are attempted. -/
theorem C7_bucket_short_circuit (env : Env) (root bucket pre : String)
    (public : Bool) (completed : List (String × TaskResult))
    (hb : env.bucketExists bucket = false) :
    upload_dir_cli env root bucket pre public completed = (1, []) := by
  simp [upload_dir_cli, hb]

/-- C7 witness: the bucket `ghostbucket` does not exist in `sampleEnv`,
so the batch command short-circuits with exit status 1 and an empty
store-call trace. -/
theorem C7_bucket_short_circuit_witness :
    sampleEnv.bucketExists "ghostbucket" = false ∧
    upload_dir_cli sampleEnv "/data" "ghostbucket" "" false
      (task_outcomes sampleEnv "/data" "ghostbucket" "" false) = (1, []) :=
  ⟨by decide,
   C7_bucket_short_circuit sampleEnv "/data" "ghostbucket" "" false
     (task_outcomes sampleEnv "/data" "ghostbucket" "" false) (by decide)⟩

/-- Helper for C8: a completion list has no failures exactly when every
task's outcome is a success. -/
theorem countFail_eq_zero_iff (l : List (String × TaskResult)) :
    countFail l = 0 ↔ ∀ t ∈ l, t.2 = TaskResult.ok := by
  unfold countFail
  rw [List.countP_eq_zero]
  simp

/-- C8: the `upload` command exits 0 exactly when the bucket is
accessible and the single file uploaded successfully, and the
`upload_dir` command exits 0 exactly when the bucket is accessible and
every submitted task succeeded — any failed file or missing bucket
forces a non-zero exit. -/
theorem C8_exit_status (env : Env) (root bucket pre fp : String)
    (blobName : Option String) (public mp : Bool)
    (completed : List (String × TaskResult))
    (hdir : env.dirOk root = true)
    (hcomp : completed.Perm (task_outcomes env root bucket pre mp)) :
    (upload_cli env fp bucket blobName public = 0 ↔
        env.bucketExists bucket = true ∧
        (upload_file env fp bucket blobName public).1 = true) ∧
    ((upload_dir_cli env root bucket pre mp completed).1 = 0 ↔
        env.bucketExists bucket = true ∧
        ∀ t ∈ task_outcomes env root bucket pre mp, t.2 = TaskResult.ok) := by
  constructor
  · cases hb : env.bucketExists bucket <;>
      cases hu : (upload_file env fp bucket blobName public).1 <;>
        simp [upload_cli, hb, hu]
  · cases hb : env.bucketExists bucket
    · simp [upload_dir_cli, hb]
    · have hfail : countFail completed = countFail (task_outcomes env root bucket pre mp) := by
        unfold countFail
        exact hcomp.countP_eq _
      by_cases hfe : files_to_upload env root pre = []
      · have ht : task_outcomes env root bucket pre mp = [] := by
          simp [task_outcomes, hfe]
        simp [upload_dir_cli, hb, upload_directory, hdir, hfe, ht]
      · have h0 := countFail_eq_zero_iff (task_outcomes env root bucket pre mp)
        simp [upload_dir_cli, hb, upload_directory, hdir, hfe, aggregate_failed,
          hfail]
        simpa using h0

/-- C8 witness: in `sampleEnv`, uploading the single file `/data/a.txt`
to the existing bucket exits 0, while the `/data` batch — which
contains the failing file `sub/bad.txt` — exits non-zero. -/
theorem C8_exit_status_witness :
    upload_cli sampleEnv "/data/a.txt" "mybucket" none false = 0 ∧
    (upload_dir_cli sampleEnv "/data" "mybucket" "" false
        (task_outcomes sampleEnv "/data" "mybucket" "" false)).1 ≠ 0 :=
  ⟨(C8_exit_status sampleEnv "/data" "mybucket" "" "/data/a.txt" none false false
      (task_outcomes sampleEnv "/data" "mybucket" "" false)
      (by decide) (List.Perm.refl _)).1.mpr ⟨by decide, by decide⟩,
   fun h =>
     absurd
       (((C8_exit_status sampleEnv "/data" "mybucket" "" "/data/a.txt" none false false
           (task_outcomes sampleEnv "/data" "mybucket" "" false)
           (by decide) (List.Perm.refl _)).2.mp h).2
         ("/data/sub/bad.txt", TaskResult.fail) (by decide))
       (by decide)⟩

/-- C10: for a single-file upload with no destination key supplied
(`blob_name is None`), the store write uses the final path component
(basename) of the local source file as the destination key. -/
theorem C10_default_blob_name (env : Env) (fp bucket : String) (mp : Bool)
    (hex : env.fileExists fp = true) :
    ((upload_file env fp bucket none mp).2).head?
      = some (Event.storeWrite bucket (pathName fp)) := by
  cases hu : env.uploadResult fp bucket (pathName fp)
  · cases mp <;>
      cases hmp : env.makePublicResult bucket (pathName fp) <;>
        simp [upload_file, hex, hu, hmp]
  · simp [upload_file, hex, hu]

/-- C10 witness: uploading `/data/sub/x.txt` with no blob name uses its
basename `x.txt` as the destination key. -/
theorem C10_default_blob_name_witness :
    pathName "/data/sub/x.txt" = "x.txt" ∧
    ((upload_file sampleEnv "/data/sub/x.txt" "mybucket" none false).2).head?
      = some (Event.storeWrite "mybucket" "x.txt") := by
  refine ⟨by decide, ?_⟩
  have h := C10_default_blob_name sampleEnv "/data/sub/x.txt" "mybucket" false (by decide)
  simpa using h

end GCS
